import Mathlib

/-!
Verification of the algorithmic core of a slide-generation backend:
the parametric style-gene model with perceptual breeding
(`services/style/style_gene.py`, `services/style/presets.py`) and the
content paginator / layout advisor (`services/layout/paginator.py`).

Numeric fields that are Python floats are modelled as exact rationals
(`ℚ`); all arithmetic involved is addition, subtraction, multiplication
and division, which the code's properties treat at real-arithmetic level.
-/

set_option maxHeartbeats 1000000
set_option maxRecDepth 100000

/-- Font weight enum (`FontWeight` in `style_gene.py`). -/
inductive FontWeight where
  | light
  | regular
  | medium
  | semibold
  | bold
deriving DecidableEq, Repr

/-- Typography parameters (`TypographyParams` in `style_gene.py`), with the
source's default values. -/
structure TypographyParams where
  heading_font : String := "Inter"
  body_font : String := "Inter"
  heading_weight : FontWeight := FontWeight.bold
  body_weight : FontWeight := FontWeight.regular
  base_size_pt : ℚ := 16
  scale_ratio : ℚ := 5/4
  line_height : ℚ := 3/2
  letter_spacing : ℚ := 0
deriving DecidableEq, Repr

/-- A color in CIELAB space (`LABColor` in `style_gene.py`): lightness plus
two chrominance axes.  The hex decoding (`from_hex`) delegates to the
third-party `colormath` library (with a float-power fallback), so LAB values
are treated abstractly here; interpolation is the in-repo linear blend. -/
structure LABColor where
  L : ℚ
  a : ℚ
  b : ℚ
deriving DecidableEq, Repr

/-- `LABColor.interpolate`: axis-wise linear interpolation in LAB space. -/
def LABColor.interpolate (self other : LABColor) (alpha : ℚ) : LABColor where
  L := self.L * (1 - alpha) + other.L * alpha
  a := self.a * (1 - alpha) + other.a * alpha
  b := self.b * (1 - alpha) + other.b * alpha

/-- Color palette with seven named roles (`ColorPalette` in `style_gene.py`). -/
structure ColorPalette where
  primary : LABColor
  secondary : LABColor
  accent : LABColor
  background : LABColor
  surface : LABColor
  text_primary : LABColor
  text_secondary : LABColor
deriving DecidableEq, Repr

/-- `ColorPalette.interpolate`: role-wise LAB interpolation. -/
def ColorPalette.interpolate (self other : ColorPalette) (alpha : ℚ) : ColorPalette where
  primary := self.primary.interpolate other.primary alpha
  secondary := self.secondary.interpolate other.secondary alpha
  accent := self.accent.interpolate other.accent alpha
  background := self.background.interpolate other.background alpha
  surface := self.surface.interpolate other.surface alpha
  text_primary := self.text_primary.interpolate other.text_primary alpha
  text_secondary := self.text_secondary.interpolate other.text_secondary alpha

/-- Layout physics parameters (`LayoutPhysics` in `style_gene.py`), with the
source's defaults (0.4, 8.0, 0.08, 0.04, 0.1, 0.0). -/
structure LayoutPhysics where
  density : ℚ := 2/5
  corner_radius : ℚ := 8
  margin_factor : ℚ := 2/25
  padding_factor : ℚ := 1/25
  shadow_intensity : ℚ := 1/10
  border_width : ℚ := 0
deriving DecidableEq, Repr

/-- `LayoutPhysics._lerp`: linear interpolation `a * (1 - t) + b * t`. -/
def LayoutPhysics.lerp (a b t : ℚ) : ℚ :=
  a * (1 - t) + b * t

/-- `LayoutPhysics.interpolate`: field-wise linear interpolation. -/
def LayoutPhysics.interpolate (self other : LayoutPhysics) (alpha : ℚ) : LayoutPhysics where
  density := LayoutPhysics.lerp self.density other.density alpha
  corner_radius := LayoutPhysics.lerp self.corner_radius other.corner_radius alpha
  margin_factor := LayoutPhysics.lerp self.margin_factor other.margin_factor alpha
  padding_factor := LayoutPhysics.lerp self.padding_factor other.padding_factor alpha
  shadow_intensity := LayoutPhysics.lerp self.shadow_intensity other.shadow_intensity alpha
  border_width := LayoutPhysics.lerp self.border_width other.border_width alpha

/-- Complete style gene (`StyleGene` in `style_gene.py`). -/
structure StyleGene where
  gene_id : String
  name : String
  typography : TypographyParams := {}
  palette : ColorPalette
  layout : LayoutPhysics := {}
  visual_style_prompt : String := "professional, clean, modern"
  tags : List String := []
deriving DecidableEq, Repr

/-- Python's `int(...)` truncation toward zero, on a rational. -/
def truncRat (q : ℚ) : ℤ :=
  if 0 ≤ q then q.floor else q.ceil

/-- One-decimal rendering used by the source's weight annotation
(Python `f"{w:.1f}"`); rounding detail is irrelevant to every claim. -/
def fmtWeight (q : ℚ) : String :=
  toString (truncRat (q * 10))

/-- `StyleGene.interpolate` from `style_gene.py`: breeds two genes.
Categorical typography fields are a discrete selection on `alpha < 0.5`;
numeric typography fields `base_size_pt`, `scale_ratio`, `line_height` are
linearly interpolated; the `TypographyParams` constructor call in the source
passes no `letter_spacing`, so the child gets the field's default.
Palette and layout interpolate component-wise; tags are the set union
(`list(set(self.tags + other.tags))`, modelled as deduplicated append —
claims use only set membership); the child id appends `int(alpha*100)`. -/
def StyleGene.interpolate (self other : StyleGene) (alpha : ℚ) : StyleGene where
  gene_id := self.gene_id ++ "_x_" ++ other.gene_id ++ "_" ++ toString (truncRat (alpha * 100))
  name := self.name ++ " × " ++ other.name
  typography :=
    { heading_font := if alpha < 1/2 then self.typography.heading_font else other.typography.heading_font
      body_font := if alpha < 1/2 then self.typography.body_font else other.typography.body_font
      heading_weight := if alpha < 1/2 then self.typography.heading_weight else other.typography.heading_weight
      body_weight := if alpha < 1/2 then self.typography.body_weight else other.typography.body_weight
      base_size_pt := LayoutPhysics.lerp self.typography.base_size_pt other.typography.base_size_pt alpha
      scale_ratio := LayoutPhysics.lerp self.typography.scale_ratio other.typography.scale_ratio alpha
      line_height := LayoutPhysics.lerp self.typography.line_height other.typography.line_height alpha }
  palette := self.palette.interpolate other.palette alpha
  layout := self.layout.interpolate other.layout alpha
  visual_style_prompt :=
    "(" ++ self.visual_style_prompt ++ ":" ++ fmtWeight (1 - alpha) ++ ") AND ("
      ++ other.visual_style_prompt ++ ":" ++ fmtWeight alpha ++ ")"
  tags := (self.tags ++ other.tags).dedup

/-- The `CORPORATE_CLASSIC` preset from `presets.py`.  Presets take the
hex-to-LAB conversion as a parameter `hexLab`, because `LABColor.from_hex`
delegates to the external `colormath` library (with a float-power fallback);
no claim depends on the numeric LAB values of a preset palette. -/
def CORPORATE_CLASSIC (hexLab : String → LABColor) : StyleGene where
  gene_id := "corporate_classic"
  name := "Corporate Classic"
  typography :=
    { heading_font := "Georgia", body_font := "Arial",
      heading_weight := FontWeight.bold, base_size_pt := 14, scale_ratio := 6/5 }
  palette :=
    { primary := hexLab "#1e3a5f", secondary := hexLab "#2c5282", accent := hexLab "#c05621",
      background := hexLab "#ffffff", surface := hexLab "#f7fafc",
      text_primary := hexLab "#1a202c", text_secondary := hexLab "#4a5568" }
  layout :=
    { density := 1/2, corner_radius := 4, margin_factor := 2/25, shadow_intensity := 1/20 }
  visual_style_prompt := "professional corporate, business presentation, clean navy blue, formal"
  tags := ["corporate", "professional", "formal", "business"]

/-- The `MODERN_MINIMAL` preset from `presets.py`. -/
def MODERN_MINIMAL (hexLab : String → LABColor) : StyleGene where
  gene_id := "modern_minimal"
  name := "Modern Minimal"
  typography :=
    { heading_font := "Inter", body_font := "Inter",
      heading_weight := FontWeight.semibold, base_size_pt := 16, scale_ratio := 1333/1000,
      line_height := 8/5 }
  palette :=
    { primary := hexLab "#18181b", secondary := hexLab "#3f3f46", accent := hexLab "#2563eb",
      background := hexLab "#fafafa", surface := hexLab "#ffffff",
      text_primary := hexLab "#09090b", text_secondary := hexLab "#71717a" }
  layout :=
    { density := 3/10, corner_radius := 12, margin_factor := 1/10, shadow_intensity := 0 }
  visual_style_prompt := "minimal clean modern, lots of whitespace, subtle, elegant"
  tags := ["minimal", "modern", "clean", "simple"]

/-- The `TECH_STARTUP` preset from `presets.py`. -/
def TECH_STARTUP (hexLab : String → LABColor) : StyleGene where
  gene_id := "tech_startup"
  name := "Tech Startup"
  typography :=
    { heading_font := "Poppins", body_font := "Inter",
      heading_weight := FontWeight.bold, base_size_pt := 15, scale_ratio := 5/4 }
  palette :=
    { primary := hexLab "#6366f1", secondary := hexLab "#8b5cf6", accent := hexLab "#06b6d4",
      background := hexLab "#ffffff", surface := hexLab "#f5f3ff",
      text_primary := hexLab "#1e1b4b", text_secondary := hexLab "#6b7280" }
  layout :=
    { density := 2/5, corner_radius := 16, margin_factor := 3/50, shadow_intensity := 3/20 }
  visual_style_prompt := "tech startup, gradient, vibrant purple blue, modern SaaS, innovative"
  tags := ["tech", "startup", "modern", "vibrant", "gradient"]

/-- The `DARK_CYBER` preset from `presets.py`. -/
def DARK_CYBER (hexLab : String → LABColor) : StyleGene where
  gene_id := "dark_cyber"
  name := "Dark Cyber"
  typography :=
    { heading_font := "Roboto Mono", body_font := "Roboto",
      heading_weight := FontWeight.bold, base_size_pt := 14, scale_ratio := 6/5 }
  palette :=
    { primary := hexLab "#00ff88", secondary := hexLab "#00d4ff", accent := hexLab "#ff00ff",
      background := hexLab "#0a0a0f", surface := hexLab "#141420",
      text_primary := hexLab "#e4e4e7", text_secondary := hexLab "#a1a1aa" }
  layout :=
    { density := 9/20, corner_radius := 8, margin_factor := 1/20, shadow_intensity := 0,
      border_width := 1 }
  visual_style_prompt := "cyberpunk, neon glow, dark mode, futuristic, matrix grid, tech noir"
  tags := ["dark", "cyber", "neon", "futuristic", "tech"]

/-- The `CREATIVE_BOLD` preset from `presets.py`. -/
def CREATIVE_BOLD (hexLab : String → LABColor) : StyleGene where
  gene_id := "creative_bold"
  name := "Creative Bold"
  typography :=
    { heading_font := "Playfair Display", body_font := "Source Sans Pro",
      heading_weight := FontWeight.bold, base_size_pt := 16, scale_ratio := 1414/1000 }
  palette :=
    { primary := hexLab "#dc2626", secondary := hexLab "#ea580c", accent := hexLab "#fbbf24",
      background := hexLab "#fffbeb", surface := hexLab "#ffffff",
      text_primary := hexLab "#1c1917", text_secondary := hexLab "#57534e" }
  layout :=
    { density := 1/2, corner_radius := 0, margin_factor := 7/100, shadow_intensity := 1/5 }
  visual_style_prompt := "bold creative, artistic, warm colors, expressive, dynamic, energetic"
  tags := ["creative", "bold", "artistic", "warm", "energetic"]

/-- The `NATURE_ORGANIC` preset from `presets.py`. -/
def NATURE_ORGANIC (hexLab : String → LABColor) : StyleGene where
  gene_id := "nature_organic"
  name := "Nature Organic"
  typography :=
    { heading_font := "Lora", body_font := "Open Sans",
      heading_weight := FontWeight.medium, base_size_pt := 15, scale_ratio := 5/4,
      line_height := 17/10 }
  palette :=
    { primary := hexLab "#166534", secondary := hexLab "#15803d", accent := hexLab "#84cc16",
      background := hexLab "#f0fdf4", surface := hexLab "#ffffff",
      text_primary := hexLab "#14532d", text_secondary := hexLab "#4d7c0f" }
  layout :=
    { density := 7/20, corner_radius := 24, margin_factor := 9/100, shadow_intensity := 2/25 }
  visual_style_prompt := "organic nature, green sustainable, eco-friendly, natural, peaceful"
  tags := ["nature", "organic", "green", "sustainable", "calm"]

/-- The `STYLE_PRESETS` mapping from `presets.py`: a module-level constant
association from id to gene, populated once and only ever read. -/
def STYLE_PRESETS (hexLab : String → LABColor) : List (String × StyleGene) :=
  [("corporate_classic", CORPORATE_CLASSIC hexLab),
   ("modern_minimal", MODERN_MINIMAL hexLab),
   ("tech_startup", TECH_STARTUP hexLab),
   ("dark_cyber", DARK_CYBER hexLab),
   ("creative_bold", CREATIVE_BOLD hexLab),
   ("nature_organic", NATURE_ORGANIC hexLab)]

/-- `get_preset` from `presets.py`: look the id up, raising
`ValueError("Unknown preset: ...")` (surfaced as NotFound) when absent. -/
def get_preset (hexLab : String → LABColor) (preset_id : String) : Except String StyleGene :=
  match (STYLE_PRESETS hexLab).lookup preset_id with
  | some g => Except.ok g
  | none => Except.error ("Unknown preset: " ++ preset_id)

/-- `breed_styles` from `presets.py`: resolve both parents and interpolate.
No alpha-range check is present in the source. -/
def breed_styles (hexLab : String → LABColor) (parent_a_id parent_b_id : String)
    (alpha : ℚ) : Except String StyleGene := do
  let parent_a ← get_preset hexLab parent_a_id
  let parent_b ← get_preset hexLab parent_b_id
  pure (parent_a.interpolate parent_b alpha)

/-- Slide layout templates (`LayoutType` in `nlp/models.py`). -/
inductive LayoutType where
  | title_only
  | title_content
  | two_column
  | visual_heavy
  | comparison
  | section_header
  | blank
deriving DecidableEq, Repr

/-- Kinds of generated visuals (`VisualType` in `nlp/models.py`). -/
inductive VisualType where
  | none
  | image
  | chart_bar
  | chart_pie
  | chart_line
  | icon_3d
  | diagram
  | infographic
deriving DecidableEq, Repr

/-- Chart payload (`ChartData` in `nlp/models.py`). -/
structure ChartData where
  labels : List String
  values : List ℚ
  title : Option String := Option.none
deriving DecidableEq, Repr

/-- Visual element specification (`VisualSpec` in `nlp/models.py`).  The
pydantic field is non-optional with a default instance, so a `SlideContent`
always carries one. -/
structure VisualSpec where
  visual_type : VisualType := VisualType.none
  prompt : String := ""
  chart_data : Option ChartData := Option.none
  style_keywords : List String := []
deriving DecidableEq, Repr

/-- One input slide (`SlideContent` in `nlp/models.py`). -/
structure SlideContent where
  title : String
  layout_type : LayoutType := LayoutType.title_content
  body_text : List String := []
  visual_spec : VisualSpec := {}
  speaker_notes : String := ""
  key_message : String := ""
deriving DecidableEq, Repr

/-- Content block kinds (`BlockType` in `paginator.py`). -/
inductive BlockType where
  | heading
  | paragraph
  | bullet_list
  | numbered_list
  | image
  | chart
  | quote
  | spacer
deriving DecidableEq, Repr

/-- A content block with estimated height (`ContentBlock` in `paginator.py`). -/
structure ContentBlock where
  block_type : BlockType
  content : String
  estimated_height_pt : ℚ := 0
  level : ℕ := 0
  visual_spec : Option VisualSpec := Option.none
  keep_with_next : Bool := false
deriving DecidableEq, Repr

/-- `SLIDE_HEIGHT_PT` (540 = 7.5 inches at 72 DPI). -/
def SLIDE_HEIGHT_PT : ℚ := 540

/-- `SLIDE_WIDTH_PT` (720 = 10 inches at 72 DPI). -/
def SLIDE_WIDTH_PT : ℚ := 720

/-- `TITLE_AREA_PT`. -/
def TITLE_AREA_PT : ℚ := 80

/-- `FOOTER_AREA_PT`. -/
def FOOTER_AREA_PT : ℚ := 30

/-- `CONTENT_AREA_PT = SLIDE_HEIGHT_PT - TITLE_AREA_PT - FOOTER_AREA_PT` (430). -/
def CONTENT_AREA_PT : ℚ := SLIDE_HEIGHT_PT - TITLE_AREA_PT - FOOTER_AREA_PT

/-- The `BLOCK_HEIGHTS` table from `paginator.py`; every `BlockType` has an
entry, so the `.get(type, 30)` default of the source is never consulted. -/
def BLOCK_HEIGHTS : BlockType → ℚ
  | BlockType.heading => 60
  | BlockType.paragraph => 45
  | BlockType.bullet_list => 25
  | BlockType.numbered_list => 28
  | BlockType.image => 200
  | BlockType.chart => 250
  | BlockType.quote => 60
  | BlockType.spacer => 20

/-- Specification for one compiled slide (`SlideSpec` in `paginator.py`). -/
structure SlideSpec where
  title : String
  layout_type : LayoutType
  blocks : List ContentBlock := []
  visual_spec : Option VisualSpec := Option.none
  speaker_notes : String := ""
  total_height_pt : ℚ := 0
  is_continuation : Bool := false
  continuation_marker : String := ""
deriving DecidableEq, Repr

/-- Greedy bin-packing paginator (`Paginator` in `paginator.py`) with its
constructor defaults. -/
structure Paginator where
  max_content_height : ℚ := CONTENT_AREA_PT
  title_height : ℚ := TITLE_AREA_PT
deriving DecidableEq, Repr

/-- `Paginator._estimate_block_height`: an explicit positive pre-set height
wins; otherwise the per-type base height, with paragraphs scaled by
`len(content) / 60` lines at 20pt per line. -/
def Paginator.estimate_block_height (_p : Paginator) (block : ContentBlock) : ℚ :=
  if 0 < block.estimated_height_pt then block.estimated_height_pt
  else
    let base_height := BLOCK_HEIGHTS block.block_type
    if block.block_type = BlockType.paragraph then
      max base_height ((block.content.length : ℚ) / 60 * 20)
    else base_height

/-- `Paginator._can_fit_on_slide`: accumulated height plus the block's
estimate stays within `max_content_height` (a decidable proposition,
returned as `bool` in the source). -/
def Paginator.can_fit_on_slide (p : Paginator) (current_slide : SlideSpec)
    (block : ContentBlock) : Prop :=
  current_slide.total_height_pt + p.estimate_block_height block ≤ p.max_content_height

instance (p : Paginator) (s : SlideSpec) (b : ContentBlock) :
    Decidable (p.can_fit_on_slide s b) :=
  inferInstanceAs (Decidable (_ ≤ _))

/-- The overflow loop of `Paginator.paginate_slide_content` (the `for` loop
over `blocks`): greedily append a fitting block to the current slide;
otherwise close the current slide (only if non-empty) and start a fresh
continuation slide holding the block.  The trailing non-empty current slide
is appended at the end. -/
def Paginator.packLoop (p : Paginator) (title : String) (lt : LayoutType)
    (acc : List SlideSpec) (current : SlideSpec) : List ContentBlock → List SlideSpec
  | [] => if current.blocks.isEmpty then acc else acc ++ [current]
  | block :: rest =>
    if p.can_fit_on_slide current block then
      p.packLoop title lt acc
        { current with
          blocks := current.blocks ++ [block]
          total_height_pt := current.total_height_pt + p.estimate_block_height block }
        rest
    else
      let acc2 := if current.blocks.isEmpty then acc else acc ++ [current]
      p.packLoop title lt acc2
        { title := title, layout_type := lt,
          is_continuation := true, continuation_marker := "(Continued)",
          blocks := [block], total_height_pt := p.estimate_block_height block }
        rest

/-- `Paginator.paginate_slide_content`: convert every body line into a
25pt bullet block; emit one slide when everything fits, otherwise run the
greedy packing loop.  In the overflow branch the first slide keeps the
input's visual spec and speaker notes (the source's
`slide.visual_spec if not slides else None` is evaluated while `slides`
is still empty). -/
def Paginator.paginate_slide_content (p : Paginator) (slide : SlideContent) :
    List SlideSpec :=
  let blocks := slide.body_text.map (fun text =>
    { block_type := BlockType.bullet_list, content := text,
      estimated_height_pt := BLOCK_HEIGHTS BlockType.bullet_list : ContentBlock })
  let total_height := (blocks.map p.estimate_block_height).sum
  if total_height ≤ p.max_content_height then
    [{ title := slide.title, layout_type := slide.layout_type, blocks := blocks,
       visual_spec := some slide.visual_spec, speaker_notes := slide.speaker_notes,
       total_height_pt := total_height }]
  else
    p.packLoop slide.title slide.layout_type []
      { title := slide.title, layout_type := slide.layout_type,
        visual_spec := some slide.visual_spec, speaker_notes := slide.speaker_notes }
      blocks

/-- `Paginator.paginate_presentation`: flat-map pagination over the deck. -/
def Paginator.paginate_presentation (p : Paginator) (slides : List SlideContent) :
    List SlideSpec :=
  slides.flatMap p.paginate_slide_content

/-- `LayoutOptimizer.suggest_layout` from `paginator.py`.  The source's
`slide.visual_spec and ...` conjunct is always truthy (the pydantic field is
non-optional), so `has_visual` reduces to the type test. -/
def suggest_layout (slide : SlideContent) : LayoutType :=
  let has_visual : Bool := slide.visual_spec.visual_type ≠ VisualType.none
  let text_count := slide.body_text.length
  if text_count = 0 && !has_visual then LayoutType.title_only
  else if text_count ≤ 1 && !has_visual then LayoutType.section_header
  else if has_visual then
    (if text_count ≤ 2 then LayoutType.visual_heavy else LayoutType.two_column)
  else if 4 ≤ text_count && text_count % 2 = 0 then LayoutType.two_column
  else LayoutType.title_content

/-- `LayoutOptimizer.calculate_density_score`. -/
def calculate_density_score (slide : SlideSpec) : ℚ :=
  slide.total_height_pt / CONTENT_AREA_PT

/-- Title text computed by `_add_content_slide` in `pptx_compiler.py`:
continuation slides get the literal suffix " (Continued)". -/
def compilerTitleText (title : String) (is_continuation : Bool) : String :=
  if is_continuation then title ++ " (Continued)" else title

/-- Layout decision table exactly as the specification words it, as a pure
function of the body-line count `n` and the visual flag (spec §4.5); used
to state the refinement claim about `suggest_layout`. -/
def suggest_layout_table (n : ℕ) (hasVisual : Bool) : LayoutType :=
  if n = 0 ∧ hasVisual = false then LayoutType.title_only
  else if n ≤ 1 ∧ hasVisual = false then LayoutType.section_header
  else if hasVisual = true ∧ n ≤ 2 then LayoutType.visual_heavy
  else if hasVisual = true ∧ 2 < n then LayoutType.two_column
  else if 4 ≤ n ∧ n % 2 = 0 then LayoutType.two_column
  else LayoutType.title_content

theorem LayoutPhysics.lerp_self (a t : ℚ) : LayoutPhysics.lerp a a t = a := by
  unfold LayoutPhysics.lerp; ring

theorem LayoutPhysics.lerp_zero (a b : ℚ) : LayoutPhysics.lerp a b 0 = a := by
  unfold LayoutPhysics.lerp; ring

theorem LayoutPhysics.lerp_one (a b : ℚ) : LayoutPhysics.lerp a b 1 = b := by
  unfold LayoutPhysics.lerp; ring

theorem lab_interpolate_self (c : LABColor) (t : ℚ) : c.interpolate c t = c := by
  cases c with
  | mk L a b =>
    simp only [LABColor.interpolate, LABColor.mk.injEq]
    refine ⟨by ring, by ring, by ring⟩

theorem lab_interpolate_zero (c d : LABColor) : c.interpolate d 0 = c := by
  cases c with
  | mk L a b =>
    simp only [LABColor.interpolate, LABColor.mk.injEq]
    refine ⟨by ring, by ring, by ring⟩

theorem lab_interpolate_one (c d : LABColor) : c.interpolate d 1 = d := by
  cases d with
  | mk L a b =>
    simp only [LABColor.interpolate, LABColor.mk.injEq]
    refine ⟨by ring, by ring, by ring⟩

theorem palette_interpolate_self (p : ColorPalette) (t : ℚ) : p.interpolate p t = p := by
  cases p
  simp [ColorPalette.interpolate, lab_interpolate_self]

theorem palette_interpolate_zero (p q : ColorPalette) : p.interpolate q 0 = p := by
  cases p
  simp [ColorPalette.interpolate, lab_interpolate_zero]

theorem palette_interpolate_one (p q : ColorPalette) : p.interpolate q 1 = q := by
  cases q
  simp [ColorPalette.interpolate, lab_interpolate_one]

theorem physics_interpolate_self (l : LayoutPhysics) (t : ℚ) : l.interpolate l t = l := by
  cases l
  simp [LayoutPhysics.interpolate, LayoutPhysics.lerp_self]

theorem physics_interpolate_zero (l m : LayoutPhysics) : l.interpolate m 0 = l := by
  cases l
  simp [LayoutPhysics.interpolate, LayoutPhysics.lerp_zero]

theorem physics_interpolate_one (l m : LayoutPhysics) : l.interpolate m 1 = m := by
  cases m
  simp [LayoutPhysics.interpolate, LayoutPhysics.lerp_one]

/-- A concrete palette used for counterexample and witness genes. -/
def grayPalette : ColorPalette where
  primary := ⟨50, 0, 0⟩
  secondary := ⟨60, 0, 0⟩
  accent := ⟨70, 5, 5⟩
  background := ⟨98, 0, 0⟩
  surface := ⟨95, 0, 0⟩
  text_primary := ⟨10, 0, 0⟩
  text_secondary := ⟨40, 0, 0⟩

/-- A second concrete palette, distinct from `grayPalette`. -/
def bluePalette : ColorPalette where
  primary := ⟨30, 20, -40⟩
  secondary := ⟨45, 10, -30⟩
  accent := ⟨75, -10, 60⟩
  background := ⟨99, 0, -1⟩
  surface := ⟨97, 0, -2⟩
  text_primary := ⟨12, 5, -10⟩
  text_secondary := ⟨45, 2, -8⟩

/-- A concrete gene whose typography sets a non-zero `letter_spacing`. -/
def geneLS : StyleGene where
  gene_id := "g"
  name := "g"
  typography := { letter_spacing := 1 }
  palette := grayPalette
  tags := ["t"]

/-- A concrete parent gene with Georgia/Arial typography. -/
def geneA : StyleGene where
  gene_id := "gA"
  name := "A"
  typography :=
    { heading_font := "Georgia", body_font := "Arial",
      heading_weight := FontWeight.bold, body_weight := FontWeight.regular,
      base_size_pt := 14, scale_ratio := 6/5 }
  palette := grayPalette
  tags := ["a"]

/-- A concrete parent gene with Inter typography, distinct from `geneA`. -/
def geneB : StyleGene where
  gene_id := "gB"
  name := "B"
  typography :=
    { heading_font := "Inter", body_font := "Inter",
      heading_weight := FontWeight.semibold, body_weight := FontWeight.medium,
      base_size_pt := 16, scale_ratio := 4/3, line_height := 8/5 }
  palette := bluePalette
  layout := { density := 3/10, corner_radius := 12 }
  tags := ["b"]

/-- C3 counterexample: at the in-range mixing factor `alpha = 0`, breeding
the gene `geneLS` (whose `letter_spacing` is 1) with itself yields a child
whose `letter_spacing` differs from the parent's, refuting the claim that
every numeric field — letter spacing included — is preserved. -/
theorem self_breed_letter_spacing_counterexample :
    (0:ℚ) ≤ 0 ∧ (0:ℚ) ≤ 1 ∧
    (geneLS.interpolate geneLS 0).typography.letter_spacing ≠
      geneLS.typography.letter_spacing := by
  refine ⟨le_refl 0, by norm_num, ?_⟩
  decide

/-- C3 (amended): for every StyleGene `g` and `alpha ∈ [0,1]`,
`g.interpolate g alpha` preserves every numeric field except
`letter_spacing` — base size, scale ratio, line height, the whole layout
record (density, corner radius, margin and padding factors, shadow
intensity, border width) and every LAB axis of every palette color — the
child's `letter_spacing` is the `TypographyParams` default 0 regardless of
`g`'s, and the child's tag set equals `g`'s tag set. -/
theorem self_breed_identity (g : StyleGene) (alpha : ℚ)
    (_h0 : 0 ≤ alpha) (_h1 : alpha ≤ 1) :
    (g.interpolate g alpha).typography.base_size_pt = g.typography.base_size_pt ∧
    (g.interpolate g alpha).typography.scale_ratio = g.typography.scale_ratio ∧
    (g.interpolate g alpha).typography.line_height = g.typography.line_height ∧
    (g.interpolate g alpha).typography.letter_spacing = 0 ∧
    (g.interpolate g alpha).layout = g.layout ∧
    (g.interpolate g alpha).palette = g.palette ∧
    (∀ t, t ∈ (g.interpolate g alpha).tags ↔ t ∈ g.tags) := by
  refine ⟨?_, ?_, ?_, rfl, ?_, ?_, ?_⟩
  · exact LayoutPhysics.lerp_self _ _
  · exact LayoutPhysics.lerp_self _ _
  · exact LayoutPhysics.lerp_self _ _
  · exact physics_interpolate_self _ _
  · exact palette_interpolate_self _ _
  · intro t
    show t ∈ (g.tags ++ g.tags).dedup ↔ t ∈ g.tags
    simp [List.mem_dedup]

/-- C3 witness: the amended self-identity instantiated at `geneLS`,
`alpha = 1/2`. -/
theorem self_breed_identity_witness :
    (0:ℚ) ≤ 1/2 ∧ (1/2:ℚ) ≤ 1 ∧
    (geneLS.interpolate geneLS (1/2)).typography.base_size_pt =
      geneLS.typography.base_size_pt :=
  ⟨one_half_pos.le, one_half_lt_one.le,
    (self_breed_identity geneLS (1/2) one_half_pos.le one_half_lt_one.le).1⟩

/-- C4: `interpolate(A,B,0)` reproduces A's numeric fields and
`interpolate(A,B,1)` reproduces B's — the numeric fields being the
interpolated ones (base size, scale ratio, line height, the layout record's
density / corner radius / margin factor / padding factor / shadow intensity /
border width, and every LAB axis of every palette color); and the
categorical fields (heading font, body font, heading weight, body weight)
equal A's when `alpha < 0.5` and B's when `alpha ≥ 0.5`, so at exactly
`alpha = 0.5` the child carries B's categorical fields. -/
theorem breed_boundaries_and_categorical (A B : StyleGene) :
    ((A.interpolate B 0).typography.base_size_pt = A.typography.base_size_pt ∧
     (A.interpolate B 0).typography.scale_ratio = A.typography.scale_ratio ∧
     (A.interpolate B 0).typography.line_height = A.typography.line_height ∧
     (A.interpolate B 0).layout = A.layout ∧
     (A.interpolate B 0).palette = A.palette) ∧
    ((A.interpolate B 1).typography.base_size_pt = B.typography.base_size_pt ∧
     (A.interpolate B 1).typography.scale_ratio = B.typography.scale_ratio ∧
     (A.interpolate B 1).typography.line_height = B.typography.line_height ∧
     (A.interpolate B 1).layout = B.layout ∧
     (A.interpolate B 1).palette = B.palette) ∧
    (∀ alpha : ℚ, alpha < 1/2 →
     (A.interpolate B alpha).typography.heading_font = A.typography.heading_font ∧
     (A.interpolate B alpha).typography.body_font = A.typography.body_font ∧
     (A.interpolate B alpha).typography.heading_weight = A.typography.heading_weight ∧
     (A.interpolate B alpha).typography.body_weight = A.typography.body_weight) ∧
    (∀ alpha : ℚ, 1/2 ≤ alpha →
     (A.interpolate B alpha).typography.heading_font = B.typography.heading_font ∧
     (A.interpolate B alpha).typography.body_font = B.typography.body_font ∧
     (A.interpolate B alpha).typography.heading_weight = B.typography.heading_weight ∧
     (A.interpolate B alpha).typography.body_weight = B.typography.body_weight) := by
  refine ⟨⟨?_, ?_, ?_, ?_, ?_⟩, ⟨?_, ?_, ?_, ?_, ?_⟩, ?_, ?_⟩
  · exact LayoutPhysics.lerp_zero _ _
  · exact LayoutPhysics.lerp_zero _ _
  · exact LayoutPhysics.lerp_zero _ _
  · exact physics_interpolate_zero _ _
  · exact palette_interpolate_zero _ _
  · exact LayoutPhysics.lerp_one _ _
  · exact LayoutPhysics.lerp_one _ _
  · exact LayoutPhysics.lerp_one _ _
  · exact physics_interpolate_one _ _
  · exact palette_interpolate_one _ _
  · intro alpha h
    simp only [StyleGene.interpolate]
    rw [if_pos h, if_pos h, if_pos h, if_pos h]
    exact ⟨rfl, rfl, rfl, rfl⟩
  · intro alpha h
    simp only [StyleGene.interpolate]
    rw [if_neg (not_lt.mpr h), if_neg (not_lt.mpr h), if_neg (not_lt.mpr h),
      if_neg (not_lt.mpr h)]
    exact ⟨rfl, rfl, rfl, rfl⟩

/-- C4 witness: categorical selection exercised at `alpha = 0` (below the
tie-break, A's font) and at exactly `alpha = 1/2` (B's font), on the
concrete parents `geneA` and `geneB`. -/
theorem breed_boundaries_and_categorical_witness :
    (0:ℚ) < 1/2 ∧
    (geneA.interpolate geneB 0).typography.heading_font =
      geneA.typography.heading_font ∧
    (1/2:ℚ) ≤ 1/2 ∧
    (geneA.interpolate geneB (1/2)).typography.heading_font =
      geneB.typography.heading_font :=
  ⟨one_half_pos,
   ((breed_boundaries_and_categorical geneA geneB).2.2.1 0 one_half_pos).1,
   le_refl _,
   ((breed_boundaries_and_categorical geneA geneB).2.2.2 (1/2) (le_refl _)).1⟩

/-- C5 counterexample: at `alpha = 2`, outside `[0,1]`, `interpolate` does
not fail — the source contains no range check — and returns a well-formed
child: its id records `int(2 * 100) = 200` and its base size is the linear
extrapolation `14 * (1-2) + 16 * 2 = 18`. -/
theorem interpolate_out_of_range_returns_child :
    (geneA.interpolate geneB 2).gene_id = "gA_x_gB_200" ∧
    (geneA.interpolate geneB 2).typography.base_size_pt = 18 := by
  constructor
  · show geneA.gene_id ++ "_x_" ++ geneB.gene_id ++ "_" ++ toString (truncRat (2 * 100)) =
      "gA_x_gB_200"
    rw [show truncRat (2 * 100) = 200 from by norm_num [truncRat, Rat.floor_def']]
    decide
  · show LayoutPhysics.lerp 14 16 2 = 18
    unfold LayoutPhysics.lerp; norm_num

/-- C5 (amended): `interpolate` and `breed_styles` perform no range check on
the mixing factor: for every `alpha`, including values outside `[0,1]`, they
return a child StyleGene computed by the usual interpolation formulas
(numeric fields linearly extrapolated, id recording `int(alpha*100)`);
`breed_styles` on two known preset ids likewise succeeds for any such
`alpha`.  The `[0,1]` range is enforced only by the HTTP request model
(`BreedRequest.alpha` with `ge=0, le=1` in `routes.py`), not by these
functions. -/
theorem interpolate_no_alpha_validation (A B : StyleGene) (alpha : ℚ)
    (_h : alpha < 0 ∨ 1 < alpha) :
    (A.interpolate B alpha).gene_id =
      A.gene_id ++ "_x_" ++ B.gene_id ++ "_" ++ toString (truncRat (alpha * 100)) ∧
    (A.interpolate B alpha).typography.base_size_pt =
      LayoutPhysics.lerp A.typography.base_size_pt B.typography.base_size_pt alpha ∧
    (A.interpolate B alpha).layout = A.layout.interpolate B.layout alpha ∧
    (A.interpolate B alpha).palette = A.palette.interpolate B.palette alpha ∧
    (∀ hexLab, breed_styles hexLab "corporate_classic" "modern_minimal" alpha =
      Except.ok ((CORPORATE_CLASSIC hexLab).interpolate (MODERN_MINIMAL hexLab) alpha)) :=
  ⟨rfl, rfl, rfl, rfl, fun _ => rfl⟩

/-- C5 witness: the amended no-validation theorem instantiated at
`alpha = 2 > 1` on the concrete parents `geneA` and `geneB`. -/
theorem interpolate_no_alpha_validation_witness :
    ((2:ℚ) < 0 ∨ 1 < (2:ℚ)) ∧
    (geneA.interpolate geneB 2).typography.base_size_pt =
      LayoutPhysics.lerp geneA.typography.base_size_pt geneB.typography.base_size_pt 2 :=
  ⟨Or.inr one_lt_two,
   (interpolate_no_alpha_validation geneA geneB 2 (Or.inr one_lt_two)).2.1⟩

/-- C10: for every pair of parents and every mixing factor, the source's
`TypographyParams(...)` call inside `StyleGene.interpolate` omits
`letter_spacing`, so the child's letter spacing is the field default 0.0
regardless of either parent's value — letter spacing is neither
interpolated nor copied during breeding. -/
theorem breed_child_letter_spacing_default (A B : StyleGene) (alpha : ℚ) :
    (A.interpolate B alpha).typography.letter_spacing =
      ({} : TypographyParams).letter_spacing := rfl

theorem BLOCK_HEIGHTS_pos (t : BlockType) : 0 < BLOCK_HEIGHTS t := by
  cases t <;> norm_num [BLOCK_HEIGHTS]

theorem Paginator.estimate_block_height_pos (p : Paginator) (b : ContentBlock) :
    0 < p.estimate_block_height b := by
  unfold Paginator.estimate_block_height
  split
  · assumption
  · split
    · exact lt_max_of_lt_left (BLOCK_HEIGHTS_pos _)
    · exact BLOCK_HEIGHTS_pos _

theorem Paginator.packLoop_blocks (p : Paginator) (title : String) (lt : LayoutType) :
    ∀ (bs : List ContentBlock) (acc : List SlideSpec) (cur : SlideSpec),
      (p.packLoop title lt acc cur bs).flatMap SlideSpec.blocks =
        acc.flatMap SlideSpec.blocks ++ cur.blocks ++ bs := by
  intro bs
  induction bs with
  | nil =>
    intro acc cur
    by_cases h : cur.blocks.isEmpty
    · have hnil : cur.blocks = [] := List.isEmpty_iff.mp h
      simp [Paginator.packLoop, h, hnil]
    · simp [Paginator.packLoop, h]
  | cons b rest ih =>
    intro acc cur
    by_cases hfit : p.can_fit_on_slide cur b
    · rw [show p.packLoop title lt acc cur (b :: rest) =
          p.packLoop title lt acc
            { cur with
              blocks := cur.blocks ++ [b]
              total_height_pt := cur.total_height_pt + p.estimate_block_height b }
            rest from by rw [Paginator.packLoop, if_pos hfit]]
      rw [ih]
      simp
    · rw [show p.packLoop title lt acc cur (b :: rest) =
          p.packLoop title lt (if cur.blocks.isEmpty then acc else acc ++ [cur])
            { title := title, layout_type := lt,
              is_continuation := true, continuation_marker := "(Continued)",
              blocks := [b], total_height_pt := p.estimate_block_height b }
            rest from by rw [Paginator.packLoop, if_neg hfit]]
      rw [ih]
      by_cases h : cur.blocks.isEmpty
      · have hnil : cur.blocks = [] := List.isEmpty_iff.mp h
        simp [h, hnil]
      · simp [h]

/-- C1: content conservation — concatenating, in emission order, the body
text carried by the blocks of all SlideSpecs that
`Paginator.paginate_slide_content` emits for one input slide reproduces the
input's `body_text` line sequence exactly: every line appears once, in the
original order, with no duplication or loss. -/
theorem paginate_slide_content_conserves_lines (p : Paginator) (slide : SlideContent) :
    ((p.paginate_slide_content slide).flatMap SlideSpec.blocks).map ContentBlock.content =
      slide.body_text := by
  have hcomp : (ContentBlock.content ∘ fun text =>
      ({ block_type := BlockType.bullet_list, content := text,
         estimated_height_pt := BLOCK_HEIGHTS BlockType.bullet_list } : ContentBlock)) = id := rfl
  simp only [Paginator.paginate_slide_content]
  split
  · simp [List.map_map, hcomp]
  · rw [Paginator.packLoop_blocks]
    simp [List.map_map, hcomp]

theorem Paginator.packLoop_capacity (p : Paginator) (title : String) (lt : LayoutType) :
    ∀ (bs : List ContentBlock) (acc : List SlideSpec) (cur : SlideSpec),
      (∀ s ∈ acc, s.total_height_pt ≤ p.max_content_height ∨
        ∃ b, s.blocks = [b] ∧ s.total_height_pt = p.estimate_block_height b ∧
          p.max_content_height < p.estimate_block_height b) →
      (cur.blocks ≠ [] → cur.total_height_pt ≤ p.max_content_height ∨
        ∃ b, cur.blocks = [b] ∧ cur.total_height_pt = p.estimate_block_height b ∧
          p.max_content_height < p.estimate_block_height b) →
      ∀ s ∈ p.packLoop title lt acc cur bs,
        s.total_height_pt ≤ p.max_content_height ∨
        ∃ b, s.blocks = [b] ∧ s.total_height_pt = p.estimate_block_height b ∧
          p.max_content_height < p.estimate_block_height b := by
  intro bs
  induction bs with
  | nil =>
    intro acc cur hacc hcur s hs
    by_cases h : cur.blocks.isEmpty
    · rw [show p.packLoop title lt acc cur [] = acc from by
        rw [Paginator.packLoop, if_pos h]] at hs
      exact hacc s hs
    · rw [show p.packLoop title lt acc cur [] = acc ++ [cur] from by
        rw [Paginator.packLoop, if_neg h]] at hs
      rcases List.mem_append.mp hs with h1 | h1
      · exact hacc s h1
      · rw [List.mem_singleton.mp h1]
        exact hcur (fun hnil => h (List.isEmpty_iff.mpr hnil))
  | cons b rest ih =>
    intro acc cur hacc hcur s hs
    by_cases hfit : p.can_fit_on_slide cur b
    · rw [show p.packLoop title lt acc cur (b :: rest) =
          p.packLoop title lt acc
            { cur with
              blocks := cur.blocks ++ [b]
              total_height_pt := cur.total_height_pt + p.estimate_block_height b }
            rest from by rw [Paginator.packLoop, if_pos hfit]] at hs
      exact ih acc
        { cur with
          blocks := cur.blocks ++ [b]
          total_height_pt := cur.total_height_pt + p.estimate_block_height b }
        hacc (fun _ => Or.inl hfit) s hs
    · rw [show p.packLoop title lt acc cur (b :: rest) =
          p.packLoop title lt (if cur.blocks.isEmpty then acc else acc ++ [cur])
            { title := title, layout_type := lt,
              is_continuation := true, continuation_marker := "(Continued)",
              blocks := [b], total_height_pt := p.estimate_block_height b }
            rest from by rw [Paginator.packLoop, if_neg hfit]] at hs
      refine ih _ _ ?_ ?_ s hs
      · by_cases h : cur.blocks.isEmpty
        · rw [if_pos h]; exact hacc
        · rw [if_neg h]
          intro t ht
          rcases List.mem_append.mp ht with h1 | h1
          · exact hacc t h1
          · rw [List.mem_singleton.mp h1]
            exact hcur (fun hnil => h (List.isEmpty_iff.mpr hnil))
      · intro _
        rcases le_or_lt (p.estimate_block_height b) p.max_content_height with h | h
        · exact Or.inl h
        · exact Or.inr ⟨b, rfl, rfl, h⟩

/-- C2: capacity invariant — every SlideSpec emitted by
`paginate_slide_content` has `total_height_pt` within the paginator's
content-area capacity `max_content_height` (default `CONTENT_AREA_PT`
= 430), except a SlideSpec holding exactly one block whose own estimated
height already exceeds that capacity; such a block is still emitted, alone
on its slide (it is never dropped — conservation is the C1 theorem). -/
theorem paginate_slide_content_capacity (p : Paginator) (slide : SlideContent)
    (s : SlideSpec) (hs : s ∈ p.paginate_slide_content slide) :
    s.total_height_pt ≤ p.max_content_height ∨
    ∃ b, s.blocks = [b] ∧ s.total_height_pt = p.estimate_block_height b ∧
      p.max_content_height < p.estimate_block_height b := by
  simp only [Paginator.paginate_slide_content] at hs
  split at hs
  · rw [List.mem_singleton.mp hs]
    exact Or.inl (by assumption)
  · refine Paginator.packLoop_capacity p slide.title slide.layout_type _ [] _
      (by intro t ht; cases ht) (fun hnil => absurd rfl hnil) s hs

/-- A concrete input slide with no body lines, used to witness C2. -/
def slide0 : SlideContent where
  title := "S"

/-- The single SlideSpec that the default-capacity paginator emits for
`slide0`. -/
def spec0 : SlideSpec where
  title := "S"
  layout_type := LayoutType.title_content
  blocks := []
  visual_spec := some {}
  speaker_notes := ""
  total_height_pt := 0

/-- C2 witness: the capacity theorem applied to the concrete paginator
`⟨430, 80⟩` and the empty-bodied slide `slide0`, whose only emitted spec is
`spec0`. -/
theorem paginate_slide_content_capacity_witness :
    spec0 ∈ (Paginator.mk 430 80).paginate_slide_content slide0 ∧
    (spec0.total_height_pt ≤ (Paginator.mk 430 80).max_content_height ∨
      spec0.blocks.length = 1) :=
  ⟨by decide,
   (paginate_slide_content_capacity (Paginator.mk 430 80) slide0 spec0 (by decide)).imp
     id (fun h => by obtain ⟨b, hb, -, -⟩ := h; simp [hb])⟩

/-- A concrete slide with zero body lines and no visual. -/
def slideNoLines : SlideContent where
  title := "t"

/-- A concrete slide with one body line plus an image visual. -/
def slideOneLineVisual : SlideContent where
  title := "t"
  body_text := ["a"]
  visual_spec := { visual_type := VisualType.image }

/-- A concrete slide with five body lines and no visual. -/
def slideFiveLines : SlideContent where
  title := "t"
  body_text := ["a", "b", "c", "d", "e"]

/-- A concrete slide with four body lines and no visual. -/
def slideFourLines : SlideContent where
  title := "t"
  body_text := ["a", "b", "c", "d"]

/-- C6: `suggest_layout` is a pure function of the body-line count and the
presence of a visual (a visual spec whose type is not "none"), and agrees
with the specification's decision table evaluated top to bottom
(`suggest_layout_table`); in particular 0 lines + no visual gives
title-only, 1 line + visual gives visual-heavy, 5 lines without visual give
title-content, and 4 lines without visual give two-column. -/
theorem suggest_layout_matches_table :
    (∀ slide : SlideContent,
      suggest_layout slide =
        suggest_layout_table slide.body_text.length
          (decide (slide.visual_spec.visual_type ≠ VisualType.none))) ∧
    suggest_layout slideNoLines = LayoutType.title_only ∧
    suggest_layout slideOneLineVisual = LayoutType.visual_heavy ∧
    suggest_layout slideFiveLines = LayoutType.title_content ∧
    suggest_layout slideFourLines = LayoutType.two_column := by
  refine ⟨?_, by decide, by decide, by decide, by decide⟩
  intro slide
  by_cases hv : slide.visual_spec.visual_type = VisualType.none <;>
    simp only [suggest_layout, suggest_layout_table, hv, ne_eq, decide_not,
      decide_True, decide_False, Bool.not_true, Bool.not_false, Bool.and_true,
      Bool.and_false, Bool.true_and, Bool.false_and, not_true, not_false_iff] <;>
    split_ifs <;>
    simp_all

/-- A concrete slide with forty body lines. -/
def slideForty : SlideContent where
  title := "Agenda"
  body_text := List.replicate 40 "item"

/-- The 25pt bullet block that `paginate_slide_content` builds for each
body line of `slideForty`. -/
def bulletItem : ContentBlock where
  block_type := BlockType.bullet_list
  content := "item"
  estimated_height_pt := 25

/-- C7: end-to-end pagination — forty 25pt bullet blocks against the
default 430pt capacity yield exactly three SlideSpecs: the first holds 17
blocks (`floor(430/25)`) and is not a continuation, the remaining 23 blocks
fill two continuation slides (17 and 6 blocks) carrying marker
"(Continued)" which the compiler renders as the title suffix
" (Continued)", and no emitted SlideSpec's total height (425, 425, 150)
exceeds 430. -/
theorem paginate_forty_bullets :
    ({} : Paginator).paginate_slide_content slideForty =
      [{ title := "Agenda", layout_type := LayoutType.title_content,
         blocks := List.replicate 17 bulletItem, visual_spec := some {},
         speaker_notes := "", total_height_pt := 425 },
       { title := "Agenda", layout_type := LayoutType.title_content,
         blocks := List.replicate 17 bulletItem, is_continuation := true,
         continuation_marker := "(Continued)", total_height_pt := 425 },
       { title := "Agenda", layout_type := LayoutType.title_content,
         blocks := List.replicate 6 bulletItem, is_continuation := true,
         continuation_marker := "(Continued)", total_height_pt := 150 }] ∧
    (({} : Paginator).paginate_slide_content slideForty).map
        (fun s => s.blocks.length) = [17, 17, 6] ∧
    (({} : Paginator).paginate_slide_content slideForty).map
        SlideSpec.is_continuation = [false, true, true] ∧
    (({} : Paginator).paginate_slide_content slideForty).map
        SlideSpec.total_height_pt = [425, 425, 150] ∧
    (({} : Paginator).paginate_slide_content slideForty).map
        (fun s => compilerTitleText s.title s.is_continuation) =
      ["Agenda", "Agenda (Continued)", "Agenda (Continued)"] ∧
    (425:ℚ) ≤ 430 ∧ (150:ℚ) ≤ 430 := by
  with_unfolding_all decide

/-- C8: `get_preset` succeeds exactly on the six preset ids installed in
the module-level `STYLE_PRESETS` mapping (corporate_classic,
modern_minimal, tech_startup, dark_cyber, creative_bold, nature_organic),
returning the corresponding StyleGene, and fails (NotFound, the source's
`ValueError: Unknown preset`) on every other id.  The registry is a
constant: the source only ever reads it after module initialisation. -/
theorem get_preset_known_ids (hexLab : String → LABColor) (preset_id : String) :
    ((∃ g, get_preset hexLab preset_id = Except.ok g) ↔
      preset_id ∈ ["corporate_classic", "modern_minimal", "tech_startup",
        "dark_cyber", "creative_bold", "nature_organic"]) ∧
    get_preset hexLab "corporate_classic" = Except.ok (CORPORATE_CLASSIC hexLab) ∧
    get_preset hexLab "modern_minimal" = Except.ok (MODERN_MINIMAL hexLab) ∧
    get_preset hexLab "tech_startup" = Except.ok (TECH_STARTUP hexLab) ∧
    get_preset hexLab "dark_cyber" = Except.ok (DARK_CYBER hexLab) ∧
    get_preset hexLab "creative_bold" = Except.ok (CREATIVE_BOLD hexLab) ∧
    get_preset hexLab "nature_organic" = Except.ok (NATURE_ORGANIC hexLab) := by
  refine ⟨?_, rfl, rfl, rfl, rfl, rfl, rfl⟩
  constructor
  · rintro ⟨g, hg⟩
    by_contra hmem
    simp only [List.mem_cons, List.not_mem_nil, or_false, not_or] at hmem
    obtain ⟨h1, h2, h3, h4, h5, h6⟩ := hmem
    simp [get_preset, STYLE_PRESETS, List.lookup,
      beq_eq_false_iff_ne.mpr h1, beq_eq_false_iff_ne.mpr h2,
      beq_eq_false_iff_ne.mpr h3, beq_eq_false_iff_ne.mpr h4,
      beq_eq_false_iff_ne.mpr h5, beq_eq_false_iff_ne.mpr h6] at hg
  · intro hmem
    simp only [List.mem_cons, List.not_mem_nil, or_false] at hmem
    rcases hmem with h | h | h | h | h | h <;> subst h <;> exact ⟨_, rfl⟩
